import Mathlib

/-!
Shallow embedding of the customer-support router implemented in `src/main.py`:
the pydantic input models, the four tool functions, the handoff escalation
policy, the four specialized handlers, the dispatch table of the main agent,
and the read-line chat loop.  Machine strings are modelled by `String`,
pydantic validation by `Except`-valued constructors over dynamically typed
field values, and the external reasoning backend by an `Except`-valued
function parameter.
-/

/-- Embeds the pydantic model `BillingInput` (main.py lines 35-37). -/
structure BillingInput where
  customer_id : String
  billing_issue : String

/-- Embeds the pydantic model `RefundInput` (main.py lines 39-41). -/
structure RefundInput where
  order_id : String
  refund_reason : String

/-- Embeds the pydantic model `TechSupportInput` (main.py lines 43-44). -/
structure TechSupportInput where
  issue : String

/-- Embeds the pydantic model `GeneralInfoInput` (main.py lines 46-47). -/
structure GeneralInfoInput where
  topic : String

/-- Embeds the pydantic model `HandoffParams` (main.py lines 49-52).
The two optional fields default to `None` in the source. -/
structure HandoffParams where
  input_type : String
  input_filter : Option String
  on_handoff : Option String

/-- Embeds `billing_status_tool` (main.py lines 57-66): the f-string
interpolation is modelled by string concatenation. -/
def billing_status_tool (data : BillingInput) : String :=
  "Billing for Customer ID " ++ data.customer_id ++ " regarding \x27" ++
    data.billing_issue ++ "\x27 has been cleared successfully."

/-- Embeds `refund_status_tool` (main.py lines 68-77). -/
def refund_status_tool (data : RefundInput) : String :=
  "Refund for Order ID " ++ data.order_id ++
    " has been processed successfully due to: " ++ data.refund_reason ++ "."

/-- Embeds `general_info_tool` (main.py lines 79-85). -/
def general_info_tool (data : GeneralInfoInput) : String :=
  "Here is the information you requested about \x27" ++ data.topic ++ "\x27."

/-- Embeds `tech_support_tool` (main.py lines 87-93). -/
def tech_support_tool (data : TechSupportInput) : String :=
  "Here are some steps to troubleshoot your issue with \x27" ++
    data.issue ++ "\x27."

/-- The escalation message returned by `handoff_decision` (main.py
lines 104-107; the two adjacent Python string literals concatenate). -/
def escalationMessage : String :=
  "I am escalating your request to a human agent because it involves a sensitive or complex matter."

/-- The handled-autonomously message of `handoff_decision` (main.py line 108). -/
def handledMessage : String :=
  "AI agent handled the query successfully."

/-- The `sensitive` list inside `handoff_decision` (main.py line 102). -/
def sensitiveTypes : List String := ["legal", "complaint", "technical"]

/-- Embeds `handoff_decision` (main.py lines 98-108).  The Python
membership test `params.input_type in sensitive` is list membership. -/
def handoff_decision (params : HandoffParams) : String :=
  if params.input_type ∈ sensitiveTypes then escalationMessage else handledMessage

/-- Embeds `custom_billing_handler` (main.py lines 113-120); the unused
run-context argument is modelled by `Unit`. -/
def custom_billing_handler (ctx : Unit) (data : BillingInput) : String :=
  "Let me check your billing status... " ++ billing_status_tool data

/-- Embeds `custom_refund_handler` (main.py lines 122-129). -/
def custom_refund_handler (ctx : Unit) (data : RefundInput) : String :=
  "Let me process your refund... " ++ refund_status_tool data

/-- Embeds `custom_tech_support_handler` (main.py lines 131-138). -/
def custom_tech_support_handler (ctx : Unit) (data : TechSupportInput) : String :=
  "Let me assist with your technical issue... " ++ tech_support_tool data

/-- Embeds `custom_info_handler` (main.py lines 140-147). -/
def custom_info_handler (ctx : Unit) (data : GeneralInfoInput) : String :=
  "Let me get that information for you... " ++ general_info_tool data

/-- A dynamically typed field value as proposed by the reasoning backend to a
pydantic constructor: a string, a value of some other type (an integer stands
in for every non-string type), or the absent value. -/
inductive PyValue where
  | str (s : String)
  | int (n : Int)
  | pyNone

/-- Pydantic field validation for a required `str` field: the field must be
present and hold a string; any present non-string value is a type error and
an absent value is a missing-field error (pydantic `ValidationError` cases,
modelled by `Except.error`). -/
def requireStr (field : String) : Option PyValue → Except String String
  | some (PyValue.str s) => Except.ok s
  | some _ => Except.error (field ++ ": Input should be a valid string")
  | none => Except.error (field ++ ": Field required")

/-- Pydantic construction of `BillingInput` from raw field values: both
declared fields are validated; the instance exists only if both succeed. -/
def BillingInput.validate (customer_id billing_issue : Option PyValue) :
    Except String BillingInput := do
  let c ← requireStr "customer_id" customer_id
  let b ← requireStr "billing_issue" billing_issue
  return ⟨c, b⟩

/-- Pydantic construction of `RefundInput` from raw field values. -/
def RefundInput.validate (order_id refund_reason : Option PyValue) :
    Except String RefundInput := do
  let o ← requireStr "order_id" order_id
  let r ← requireStr "refund_reason" refund_reason
  return ⟨o, r⟩

/-- Pydantic construction of `TechSupportInput` from a raw field value. -/
def TechSupportInput.validate (issue : Option PyValue) :
    Except String TechSupportInput := do
  let i ← requireStr "issue" issue
  return ⟨i⟩

/-- Pydantic construction of `GeneralInfoInput` from a raw field value. -/
def GeneralInfoInput.validate (topic : Option PyValue) :
    Except String GeneralInfoInput := do
  let t ← requireStr "topic" topic
  return ⟨t⟩

/-- Whether a raw field value is a present string value. -/
def isStrVal : Option PyValue → Bool
  | some (PyValue.str _) => true
  | _ => false

/-- The four intent categories of the dispatch table of `main_agent`
(main.py lines 196-229), one per configured handoff. -/
inductive Intent where
  | billing
  | refund
  | general_info
  | tech_support

/-- The structured input type each handoff of `main_agent` requires
(the `input_type=` entries, main.py lines 201, 209, 217, 225). -/
def InputFor : Intent → Type
  | Intent.billing => BillingInput
  | Intent.refund => RefundInput
  | Intent.general_info => GeneralInfoInput
  | Intent.tech_support => TechSupportInput

/-- The `on_handoff` callback each handoff of `main_agent` registers
(main.py lines 203, 211, 218, 227). -/
def onHandoffFor : (i : Intent) → Unit → InputFor i → String
  | Intent.billing => custom_billing_handler
  | Intent.refund => custom_refund_handler
  | Intent.general_info => custom_info_handler
  | Intent.tech_support => custom_tech_support_handler

/-- A turn routed to a matched handoff: the agents runtime invokes the
`on_handoff` callback registered for the matched handoff with the validated
input.  Nothing on this path consults `handoff_decision`, which the source
defines but never wires into `main_agent`. -/
def dispatchTurn : (i : Intent) → InputFor i → String
  | Intent.billing, d => custom_billing_handler () d
  | Intent.refund, d => custom_refund_handler () d
  | Intent.general_info, d => custom_info_handler () d
  | Intent.tech_support, d => custom_tech_support_handler () d

/-- Python `str.strip()` on the character list of a string: removes
whitespace from both ends. -/
def pyStrip (s : String) : String :=
  ⟨((s.data.dropWhile Char.isWhitespace).reverse.dropWhile Char.isWhitespace).reverse⟩

/-- Python `str.lower()` on the character list of a string. -/
def pyLower (s : String) : String :=
  ⟨s.data.map Char.toLower⟩

/-- Outcome of one iteration of the chat loop in `main` (main.py
lines 237-247): the loop breaks on the exit keyword, prints a reply on a
normal backend result, and is terminated by an uncaught exception when the
`Runner.run` call raises, since the loop body has no exception handler. -/
inductive TurnOutcome where
  | sessionEnded
  | reply (s : String)
  | uncaughtError (e : String)

/-- One iteration of the chat loop in `main` (main.py lines 237-247),
parameterised by the external reasoning backend (`Runner.run`), which either
returns a final output or raises.  The second component counts how many
times the backend (the Router) is invoked during the iteration. -/
def mainLoopStep (runBackend : String → Except String String)
    (user_input : String) : TurnOutcome × Nat :=
  if pyLower (pyStrip user_input) = "exit" then (TurnOutcome.sessionEnded, 0)
  else
    match runBackend user_input with
    | Except.ok s => (TurnOutcome.reply s, 1)
    | Except.error e => (TurnOutcome.uncaughtError e, 1)

/-- The string `sub` occurs verbatim (as a contiguous substring) in `s`. -/
def strContains (s sub : String) : Prop :=
  sub.data <:+: s.data

instance (s sub : String) : Decidable (strContains s sub) :=
  List.decidableInfix sub.data s.data

theorem strContains_refl (s : String) : strContains s s :=
  ⟨[], [], by simp⟩

theorem strContains_append_left (s t sub : String) (h : strContains t sub) :
    strContains (s ++ t) sub := by
  obtain ⟨u, v, huv⟩ := h
  exact ⟨s.data ++ u, v, by rw [String.data_append, ← huv]; simp⟩

theorem strContains_append_right (s t sub : String) (h : strContains s sub) :
    strContains (s ++ t) sub := by
  obtain ⟨u, v, huv⟩ := h
  exact ⟨u, v ++ t.data, by rw [String.data_append, ← huv]; simp⟩

/-- Claim C1: each of the four specialized handlers returns exactly its fixed
narration prefix concatenated with the output of its action tool on the same
input. -/
theorem handlers_concat_narration_and_tool_output (ctx : Unit)
    (b : BillingInput) (r : RefundInput) (t : TechSupportInput)
    (g : GeneralInfoInput) :
    custom_billing_handler ctx b =
      "Let me check your billing status... " ++ billing_status_tool b ∧
    custom_refund_handler ctx r =
      "Let me process your refund... " ++ refund_status_tool r ∧
    custom_tech_support_handler ctx t =
      "Let me assist with your technical issue... " ++ tech_support_tool t ∧
    custom_info_handler ctx g =
      "Let me get that information for you... " ++ general_info_tool g :=
  ⟨rfl, rfl, rfl, rfl⟩

/-- Claim C2: `handoff_decision` escalates exactly the categories in the fixed
sensitive set consisting of "legal", "complaint" and "technical"; every other
input type yields the handled-autonomously message; and equal input types
always yield equal decisions. -/
theorem handoff_decision_matches_sensitive_set (p : HandoffParams) :
    ((p.input_type = "legal" ∨ p.input_type = "complaint" ∨
        p.input_type = "technical") →
      handoff_decision p = escalationMessage) ∧
    ((p.input_type ≠ "legal" ∧ p.input_type ≠ "complaint" ∧
        p.input_type ≠ "technical") →
      handoff_decision p = handledMessage) ∧
    (∀ q : HandoffParams, p.input_type = q.input_type →
      handoff_decision p = handoff_decision q) := by
  refine ⟨?_, ?_, ?_⟩
  · intro h
    have hm : p.input_type ∈ sensitiveTypes := by
      simp only [sensitiveTypes, List.mem_cons, List.not_mem_nil, or_false]
      exact h
    simp [handoff_decision, hm]
  · intro h
    have hm : p.input_type ∉ sensitiveTypes := by
      simp only [sensitiveTypes, List.mem_cons, List.not_mem_nil, or_false]
      push_neg
      exact h
    simp [handoff_decision, hm]
  · intro q h
    unfold handoff_decision
    rw [h]

/-- Witness for Claim C2 at the concrete sensitive input type "legal". -/
theorem handoff_decision_matches_sensitive_set_witness :
    handoff_decision ⟨"legal", none, none⟩ = escalationMessage :=
  (handoff_decision_matches_sensitive_set ⟨"legal", none, none⟩).1 (Or.inl rfl)

/-- Claim C3: applied to the defined tech-support category name
"tech_support", `handoff_decision` returns the handled-autonomously message
and not the escalation message, because the sensitive list holds "technical"
rather than "tech_support". -/
theorem tech_support_input_type_not_escalated (p : HandoffParams)
    (h : p.input_type = "tech_support") :
    handoff_decision p = handledMessage ∧
    handoff_decision p ≠ escalationMessage := by
  have hm : p.input_type ∉ sensitiveTypes := by
    simp [sensitiveTypes, h]
  have heq : handoff_decision p = handledMessage := by
    simp [handoff_decision, hm]
  refine ⟨heq, ?_⟩
  rw [heq]
  intro hcontra
  exact absurd hcontra (by decide)

/-- Witness for Claim C3 at a concrete `HandoffParams` value with input type
"tech_support". -/
theorem tech_support_input_type_not_escalated_witness :
    handoff_decision ⟨"tech_support", none, none⟩ = handledMessage ∧
    handoff_decision ⟨"tech_support", none, none⟩ ≠ escalationMessage :=
  tech_support_input_type_not_escalated ⟨"tech_support", none, none⟩ rfl

/-- Claim C4 is refuted by the code: the chat loop in `main` wraps the
`Runner.run` call in no exception handler, so a backend failure (timeout,
malformed response) on a non-exit input propagates and terminates the loop
instead of producing a reply string.  Concretely, with a backend that raises
on every input, the turn for input "hello" ends in an uncaught error after
the backend is invoked once. -/
theorem backend_error_terminates_loop :
    mainLoopStep (fun _ => Except.error "malformed response") "hello" =
      (TurnOutcome.uncaughtError "malformed response", 1) := rfl

/-- Counterexample to Claim C5 as stated: pydantic accepts empty strings for
required `str` fields, so construction of `BillingInput` succeeds even though
the customer_id field is the empty string; the claim asserts construction
fails on an empty field. -/
theorem empty_string_field_accepted :
    BillingInput.validate (some (PyValue.str "")) (some (PyValue.str "x")) =
      Except.ok ⟨"", "x"⟩ := rfl

/-- Claim C5 as amended: for each of the four structured input variants,
construction succeeds exactly when every declared field is present and of
string type (empty strings are accepted); a missing or wrongly typed field
makes construction fail with a validation error, and a successful
construction holds exactly the given field values, never a partial
instance. -/
theorem validation_succeeds_iff_fields_present_strings :
    (∀ oc ob : Option PyValue,
      (BillingInput.validate oc ob).isOk = (isStrVal oc && isStrVal ob)) ∧
    (∀ oo og : Option PyValue,
      (RefundInput.validate oo og).isOk = (isStrVal oo && isStrVal og)) ∧
    (∀ oi : Option PyValue,
      (TechSupportInput.validate oi).isOk = isStrVal oi) ∧
    (∀ ot : Option PyValue,
      (GeneralInfoInput.validate ot).isOk = isStrVal ot) ∧
    (∀ c b : String,
      BillingInput.validate (some (PyValue.str c)) (some (PyValue.str b)) =
        Except.ok ⟨c, b⟩) ∧
    (∀ o r : String,
      RefundInput.validate (some (PyValue.str o)) (some (PyValue.str r)) =
        Except.ok ⟨o, r⟩) ∧
    (∀ i : String,
      TechSupportInput.validate (some (PyValue.str i)) = Except.ok ⟨i⟩) ∧
    (∀ t : String,
      GeneralInfoInput.validate (some (PyValue.str t)) = Except.ok ⟨t⟩) := by
  refine ⟨?_, ?_, ?_, ?_, fun c b => rfl, fun o r => rfl,
    fun i => rfl, fun t => rfl⟩
  · intro oc ob
    rcases oc with _ | v
    · rfl
    · rcases v with s | n | _
      · rcases ob with _ | w
        · rfl
        · rcases w with u | m | _ <;> rfl
      · rfl
      · rfl
  · intro oo og
    rcases oo with _ | v
    · rfl
    · rcases v with s | n | _
      · rcases og with _ | w
        · rfl
        · rcases w with u | m | _ <;> rfl
      · rfl
      · rfl
  · intro oi
    rcases oi with _ | v
    · rfl
    · rcases v with s | n | _ <;> rfl
  · intro ot
    rcases ot with _ | v
    · rfl
    · rcases v with s | n | _ <;> rfl

/-- Claim C6: for every valid `BillingInput` (non-empty customer_id and
billing_issue), the output of `billing_status_tool` contains the customer_id
verbatim, the billing_issue verbatim, and the literal phrase
"cleared successfully." -/
theorem billing_tool_output_contains_fields (b : BillingInput)
    (hc : b.customer_id ≠ "") (hb : b.billing_issue ≠ "") :
    strContains (billing_status_tool b) b.customer_id ∧
    strContains (billing_status_tool b) b.billing_issue ∧
    strContains (billing_status_tool b) "cleared successfully." := by
  unfold billing_status_tool
  exact ⟨strContains_append_right _ _ _ (strContains_append_right _ _ _
      (strContains_append_right _ _ _
        (strContains_append_left _ _ _ (strContains_refl _)))),
    strContains_append_right _ _ _
      (strContains_append_left _ _ _ (strContains_refl _)),
    strContains_append_left _ _ _ (by decide)⟩

/-- Witness for Claim C6 at a concrete valid billing input. -/
theorem billing_tool_output_contains_fields_witness :
    strContains (billing_status_tool ⟨"C123", "late fee"⟩) "C123" ∧
    strContains (billing_status_tool ⟨"C123", "late fee"⟩) "late fee" ∧
    strContains (billing_status_tool ⟨"C123", "late fee"⟩)
      "cleared successfully." :=
  billing_tool_output_contains_fields ⟨"C123", "late fee"⟩
    (by decide) (by decide)

set_option maxRecDepth 8192 in
/-- Counterexample to Claim C7 as stated: the refund tool output places
" due to: ..." between "processed successfully" and the final period, so the
literal phrase "processed successfully." (with the period) does not occur in
the output for the valid input with order_id "123" and refund_reason
"damaged". -/
theorem refund_tool_output_lacks_phrase_with_period :
    ¬ strContains (refund_status_tool ⟨"123", "damaged"⟩)
      "processed successfully." := by decide

/-- Claim C7 as amended: for every valid `RefundInput` (non-empty order_id
and refund_reason), the output of `refund_status_tool` contains the order_id
verbatim, the refund_reason verbatim, and the literal phrase
"processed successfully" (without a trailing period, which in the output is
followed by " due to:"). -/
theorem refund_tool_output_contains_fields (r : RefundInput)
    (ho : r.order_id ≠ "") (hr : r.refund_reason ≠ "") :
    strContains (refund_status_tool r) r.order_id ∧
    strContains (refund_status_tool r) r.refund_reason ∧
    strContains (refund_status_tool r) "processed successfully" := by
  unfold refund_status_tool
  exact ⟨strContains_append_right _ _ _ (strContains_append_right _ _ _
      (strContains_append_right _ _ _
        (strContains_append_left _ _ _ (strContains_refl _)))),
    strContains_append_right _ _ _
      (strContains_append_left _ _ _ (strContains_refl _)),
    strContains_append_right _ _ _ (strContains_append_right _ _ _
      (strContains_append_left _ _ _ (by decide)))⟩

/-- Witness for Claim C7 (amended) at a concrete valid refund input. -/
theorem refund_tool_output_contains_fields_witness :
    strContains (refund_status_tool ⟨"123", "damaged"⟩) "123" ∧
    strContains (refund_status_tool ⟨"123", "damaged"⟩) "damaged" ∧
    strContains (refund_status_tool ⟨"123", "damaged"⟩)
      "processed successfully" :=
  refund_tool_output_contains_fields ⟨"123", "damaged"⟩
    (by decide) (by decide)

/-- Claim C8: an input line that strips and lowercases to "exit" ends the
chat loop without invoking the Router (backend); every other line invokes the
Router exactly once and, when the backend returns normally, the iteration
produces that reply and the session is not ended by the exit path. -/
theorem exit_keyword_ends_loop_without_router
    (runBackend : String → Except String String) (input : String) :
    (pyLower (pyStrip input) = "exit" →
      mainLoopStep runBackend input = (TurnOutcome.sessionEnded, 0)) ∧
    (pyLower (pyStrip input) ≠ "exit" →
      (mainLoopStep runBackend input).2 = 1 ∧
      (mainLoopStep runBackend input).1 ≠ TurnOutcome.sessionEnded ∧
      (∀ s, runBackend input = Except.ok s →
        (mainLoopStep runBackend input).1 = TurnOutcome.reply s)) := by
  constructor
  · intro h
    simp [mainLoopStep, h]
  · intro h
    cases hb : runBackend input with
    | ok s =>
      refine ⟨?_, ?_, ?_⟩ <;> simp [mainLoopStep, h, hb]
    | error e =>
      refine ⟨?_, ?_, ?_⟩ <;> simp [mainLoopStep, h, hb]

/-- Witness for Claim C8: the mixed-case padded line "EXIT  " ends the loop
with zero Router invocations, and the line "hello" invokes the Router once. -/
theorem exit_keyword_ends_loop_without_router_witness :
    mainLoopStep (fun s => Except.ok s) "EXIT  " =
      (TurnOutcome.sessionEnded, 0) ∧
    (mainLoopStep (fun s => Except.ok s) "hello").2 = 1 :=
  ⟨(exit_keyword_ends_loop_without_router (fun s => Except.ok s) "EXIT  ").1
      (by decide),
    ((exit_keyword_ends_loop_without_router (fun s => Except.ok s) "hello").2
      (by decide)).1⟩

/-- Claim C9: the dispatch path of `main_agent` never consults
`handoff_decision`, so for every matched handoff the registered handler runs
and produces the reply, even for parameters on which the escalation policy
returns the escalation message. -/
theorem escalation_never_suppresses_dispatch (i : Intent) (d : InputFor i)
    (p : HandoffParams) (h : handoff_decision p = escalationMessage) :
    dispatchTurn i d = onHandoffFor i () d := by
  cases i <;> rfl

/-- Witness for Claim C9: with the escalating parameter value "legal", the
billing handoff still runs `custom_billing_handler`. -/
theorem escalation_never_suppresses_dispatch_witness :
    dispatchTurn Intent.billing (⟨"C123", "late fee"⟩ : BillingInput) =
      onHandoffFor Intent.billing () (⟨"C123", "late fee"⟩ : BillingInput) :=
  escalation_never_suppresses_dispatch Intent.billing
    (⟨"C123", "late fee"⟩ : BillingInput) ⟨"legal", none, none⟩ (by decide)

/-- Claim C10: the result of `handoff_decision` depends only on the
`input_type` field of its argument, and is always exactly one of the two
fixed messages. -/
theorem handoff_decision_depends_only_on_input_type :
    (∀ p q : HandoffParams, p.input_type = q.input_type →
      handoff_decision p = handoff_decision q) ∧
    (∀ p : HandoffParams,
      handoff_decision p = escalationMessage ∨
      handoff_decision p = handledMessage) := by
  constructor
  · intro p q h
    unfold handoff_decision
    rw [h]
  · intro p
    unfold handoff_decision
    split
    · exact Or.inl rfl
    · exact Or.inr rfl

/-- Witness for Claim C10: two parameter values sharing the input type
"billing" but differing in their other fields yield equal decisions. -/
theorem handoff_decision_depends_only_on_input_type_witness :
    handoff_decision ⟨"billing", some "remove_all_tools", none⟩ =
      handoff_decision ⟨"billing", none, some "custom_billing_handler"⟩ :=
  handoff_decision_depends_only_on_input_type.1
    ⟨"billing", some "remove_all_tools", none⟩
    ⟨"billing", none, some "custom_billing_handler"⟩ rfl
